import Mathlib

/-!
Verification of the DEEP BOT stock scanner (src/bot.py) against its
natural-language specification.  Python floats are modelled as rationals,
Python ints as integers, wall-clock instants as integers (seconds), and the
string-keyed dictionaries of the source as functions to Option.
-/

/-! ### Constants (src/bot.py lines 56-74) -/

def SCAN_INTERVAL : Int := 10

def UNUSUAL_OPTIONS_INTERVAL : Int := 120

def TOP10_INTERVAL : Int := 300

def MARKET_CHECK_INTERVAL : Int := 60

def BID_MATCH_PRICE_1 : ℚ := 199999

def BID_MATCH_SHARES_1 : ℤ := 100

def BID_MATCH_PRICE_2 : ℚ := 2000

def BID_MATCH_SHARES_2 : ℤ := 20

def MIN_PERCENT_MOVE : ℚ := 5

def MIN_INSIDER_SHARES : ℤ := 10000

/-- The step table of src/bot.py lines 68-74: entries are ((lower bound,
optional upper bound), multiplier); the Python float("inf") upper bound is
modelled as none. Python dicts iterate in insertion order, so a list keeps
the same iteration order as the source. -/
def VOLUME_MULTIPLIERS : List ((ℚ × Option ℚ) × ℕ) :=
  [((1, some 10), 10),
   ((10, some 50), 20),
   ((50, some 100), 30),
   ((100, some 200), 50),
   ((200, none), 100)]

/-! ### Data classes (src/bot.py lines 77-100) -/

structure StockData where
  symbol : String
  price : ℚ
  change_percent : ℚ
  volume : ℤ
  bid : ℚ := 0
  bid_size : ℤ := 0
  ask : ℚ := 0
  ask_size : ℤ := 0
  previous_close : ℚ := 0
deriving DecidableEq, Repr

structure OptionData where
  symbol : String
  base_symbol : String
  option_type : String
  strike : ℚ
  expiration : String
  volume : ℤ
  open_interest : ℤ
  last_price : ℚ
  volatility : ℚ
  trade_time : String
deriving DecidableEq, Repr

/-- An insider-trade record as consumed by process_5percent_mover and
monitor_watchlist (only the fields the bot reads). -/
structure Trade where
  transactionType : String
  shares : ℤ
  price : ℚ := 0
deriving DecidableEq, Repr

/-! ### Dedup/cooldown ledger (AlertDetector.can_send_alert, lines 287-298) -/

/-- The alert_history dictionary of AlertDetector, keyed by the f-string
key built in can_send_alert. -/
def AlertHistory : Type := String → Option Int

def empty_history : AlertHistory := fun _ => none

def history_set (led : AlertHistory) (k : String) (t : Int) : AlertHistory :=
  fun k2 => if k2 = k then some t else led k2

/-- The dictionary key built at line 289 of src/bot.py. -/
def alert_key (symbol alert_type : String) : String :=
  symbol ++ "_" ++ alert_type

/-- The 300-second cooldown at line 294 of src/bot.py. -/
def COOLDOWN : Int := 300

/-- AlertDetector.can_send_alert (src/bot.py lines 287-298): returns whether
the alert may be sent together with the updated history. -/
def can_send_alert (led : AlertHistory) (symbol alert_type : String)
    (now : Int) : Bool × AlertHistory :=
  let key := alert_key symbol alert_type
  match led key with
  | some last =>
      if now - last < COOLDOWN then (false, led)
      else (true, history_set led key now)
  | none => (true, history_set led key now)

/-! ### Bid match (AlertDetector.check_bid_match, lines 247-257) -/

def check_bid_match (stock : StockData) : Bool × String :=
  if stock.bid = BID_MATCH_PRICE_1 ∧ stock.bid_size = BID_MATCH_SHARES_1 then
    (true, "EXACT")
  else if BID_MATCH_PRICE_2 ≤ stock.bid ∧ BID_MATCH_SHARES_2 ≤ stock.bid_size then
    (true, "HIGH_VALUE")
  else
    (false, "")

/-! ### Theorems for claims C2 and C3 -/

/-- Claim C2: on an empty ledger, allow(s, k, t0) records t0 and returns
true; allow(s, k, t1) with t1 - t0 below the 300 s cooldown returns false
and leaves the ledger (hence the stored timestamp) unchanged; allow(s, k, t2)
with t2 - t0 at least the cooldown returns true and replaces the stored
timestamp with t2, restarting the window from t2. -/
theorem dedup_ledger_window (s k : String) (t0 t1 t2 : Int)
    (h01 : t0 < t1) (h12 : t1 < t2)
    (hlt : t1 - t0 < COOLDOWN) (hge : COOLDOWN ≤ t2 - t0) :
    (can_send_alert empty_history s k t0).1 = true
    ∧ (can_send_alert empty_history s k t0).2 (alert_key s k) = some t0
    ∧ can_send_alert (can_send_alert empty_history s k t0).2 s k t1
        = (false, (can_send_alert empty_history s k t0).2)
    ∧ (can_send_alert (can_send_alert empty_history s k t0).2 s k t2).1 = true
    ∧ (can_send_alert (can_send_alert empty_history s k t0).2 s k t2).2
        (alert_key s k) = some t2 := by
  have hstep : (can_send_alert empty_history s k t0).2
      = history_set empty_history (alert_key s k) t0 := by
    simp [can_send_alert, empty_history]
  refine ⟨by simp [can_send_alert, empty_history], ?_, ?_, ?_, ?_⟩
  · rw [hstep]; simp [history_set]
  · rw [hstep]
    simp [can_send_alert, history_set, hlt]
  · rw [hstep]
    have : ¬ (t2 - t0 < COOLDOWN) := by omega
    simp [can_send_alert, history_set, this]
  · rw [hstep]
    have : ¬ (t2 - t0 < COOLDOWN) := by omega
    simp [can_send_alert, history_set, this]

/-- Witness for dedup_ledger_window at s = "XYZ", k = "VOLUME_SPIKE",
t0 = 0, t1 = 100, t2 = 400. -/
theorem dedup_ledger_window_witness :
    (can_send_alert empty_history "XYZ" "VOLUME_SPIKE" 0).1 = true
    ∧ (can_send_alert empty_history "XYZ" "VOLUME_SPIKE" 0).2
        (alert_key "XYZ" "VOLUME_SPIKE") = some 0
    ∧ can_send_alert (can_send_alert empty_history "XYZ" "VOLUME_SPIKE" 0).2
        "XYZ" "VOLUME_SPIKE" 100
        = (false, (can_send_alert empty_history "XYZ" "VOLUME_SPIKE" 0).2)
    ∧ (can_send_alert (can_send_alert empty_history "XYZ" "VOLUME_SPIKE" 0).2
        "XYZ" "VOLUME_SPIKE" 400).1 = true
    ∧ (can_send_alert (can_send_alert empty_history "XYZ" "VOLUME_SPIKE" 0).2
        "XYZ" "VOLUME_SPIKE" 400).2 (alert_key "XYZ" "VOLUME_SPIKE")
        = some 400 :=
  dedup_ledger_window "XYZ" "VOLUME_SPIKE" 0 100 400
    (by decide) (by decide) (by decide) (by decide)

/-- Claim C3: the bid-match evaluator returns a single classification, and
the exact rule has priority: a stock with bid 199999 and bidSize 100 also
satisfies the high-value thresholds, yet check_bid_match reports exactly
the EXACT match. -/
theorem bid_match_exact_priority (stock : StockData)
    (h1 : stock.bid = BID_MATCH_PRICE_1) (h2 : stock.bid_size = BID_MATCH_SHARES_1) :
    (BID_MATCH_PRICE_2 ≤ stock.bid ∧ BID_MATCH_SHARES_2 ≤ stock.bid_size)
    ∧ check_bid_match stock = (true, "EXACT") := by
  constructor
  · rw [h1, h2]
    constructor
    · norm_num [BID_MATCH_PRICE_1, BID_MATCH_PRICE_2]
    · norm_num [BID_MATCH_SHARES_1, BID_MATCH_SHARES_2]
  · simp [check_bid_match, h1, h2]

/-- Witness for bid_match_exact_priority at a concrete stock with
bid 199999 and bidSize 100. -/
theorem bid_match_exact_priority_witness :
    (BID_MATCH_PRICE_2 ≤ (199999 : ℚ) ∧ BID_MATCH_SHARES_2 ≤ (100 : ℤ))
    ∧ check_bid_match
        { symbol := "XYZ", price := 10, change_percent := 6, volume := 1000,
          bid := 199999, bid_size := 100 } = (true, "EXACT") :=
  bid_match_exact_priority
    { symbol := "XYZ", price := 10, change_percent := 6, volume := 1000,
      bid := 199999, bid_size := 100 } rfl rfl

/-! ### Volume-spike multiplier (src/bot.py lines 274-279) -/

/-- The bucket test min_p <= abs(pct) < max_p of line 277; a none upper
bound is the Python float("inf"), satisfied by every value. -/
def in_bucket (a : ℚ) (min_p : ℚ) (max_p : Option ℚ) : Bool :=
  decide (min_p ≤ a) && (match max_p with | some mx => decide (a < mx) | none => true)

/-- The loop of lines 276-279: scan the table in insertion order, take the
first bucket containing the absolute percent change, else keep the default. -/
def mult_lookup : List ((ℚ × Option ℚ) × ℕ) → ℚ → ℕ → ℕ
  | [], _, dflt => dflt
  | ((min_p, max_p), mult) :: rest, a, dflt =>
    if in_bucket a min_p max_p then mult
    else mult_lookup rest a dflt

/-- Multiplier selection of check_volume_spike (lines 274-279): default 10,
then the first matching bucket of VOLUME_MULTIPLIERS for the absolute
percent change. -/
def select_multiplier (percent_change : ℚ) : ℕ :=
  mult_lookup VOLUME_MULTIPLIERS |percent_change| 10

/-- Modelled from the spec wording of section 4.3 rule 1, for comparison
with select_multiplier: the step table [1,10) to 10, [10,50) to 20,
[50,100) to 30, [100,200) to 50, [200,inf) to 100, default 10 below the
lowest bucket. -/
def spec_multiplier (pct : ℚ) : ℕ :=
  if 1 ≤ |pct| ∧ |pct| < 10 then 10
  else if 10 ≤ |pct| ∧ |pct| < 50 then 20
  else if 50 ≤ |pct| ∧ |pct| < 100 then 30
  else if 100 ≤ |pct| ∧ |pct| < 200 then 50
  else if 200 ≤ |pct| then 100
  else 10

/-- Claim C4: the code multiplier selection agrees with the spec step table
on every percent-change value, and the boundary values 10 and 200 select
the multipliers of the buckets whose lower bounds they equal. -/
theorem volume_multiplier_table :
    (∀ pct : ℚ, select_multiplier pct = spec_multiplier pct)
    ∧ select_multiplier 10 = 20 ∧ select_multiplier 200 = 100 := by
  have htab : ∀ pct : ℚ, select_multiplier pct = spec_multiplier pct := by
    intro pct
    simp only [select_multiplier, VOLUME_MULTIPLIERS, mult_lookup, in_bucket,
      Bool.and_eq_true, decide_eq_true_eq, and_true, spec_multiplier]
  refine ⟨htab, ?_, ?_⟩
  · rw [htab]
    norm_num [spec_multiplier, abs_of_nonneg]
  · rw [htab]
    norm_num [spec_multiplier, abs_of_nonneg]

/-! ### Volume baseline tracker (AlertDetector.check_volume_spike, lines 259-285) -/

/-- One entry of the volume_history dictionary: the bounded sample list and
the stored average (initialised to the first observed volume at line 262). -/
structure VolEntry where
  samples : List ℤ
  avg : ℚ
deriving DecidableEq, Repr

def VolumeHistory : Type := String → Option VolEntry

def empty_volume_history : VolumeHistory := fun _ => none

def volume_history_set (h : VolumeHistory) (sym : String) (e : VolEntry) :
    VolumeHistory :=
  fun s2 => if s2 = sym then some e else h s2

/-- Lines 265-267: append the current volume, evicting the oldest sample
when the window of 30 overflows. -/
def push_sample (samples : List ℤ) (v : ℤ) : List ℤ :=
  let s1 := samples ++ [v]
  if 30 < s1.length then s1.drop 1 else s1

/-- The baseline average of lines 270-271: the arithmetic mean of the
retained samples, undefined unless more than 5 samples are retained. -/
def baseline_avg (samples : List ℤ) : Option ℚ :=
  if 5 < samples.length then some ((samples.sum : ℚ) / (samples.length : ℚ))
  else none

/-- The AlertDetector state (src/bot.py lines 241-245): dedup history,
watchlist (a Python set, modelled as a duplicate-free list) and per-symbol
volume history. -/
structure AlertDetector where
  alert_history : AlertHistory
  watchlist : List String
  volume_history : VolumeHistory

def init_detector : AlertDetector :=
  { alert_history := empty_history, watchlist := [], volume_history := empty_volume_history }

/-- AlertDetector.add_to_watchlist (lines 300-302); set insertion. -/
def add_to_watchlist (d : AlertDetector) (symbol : String) : AlertDetector :=
  if symbol ∈ d.watchlist then d else { d with watchlist := symbol :: d.watchlist }

/-- The samples currently stored for a symbol (empty before first sighting). -/
def samples_of (d : AlertDetector) (symbol : String) : List ℤ :=
  match d.volume_history symbol with
  | some e => e.samples
  | none => []

/-- AlertDetector.check_volume_spike (src/bot.py lines 259-285): records the
new sample and fires iff more than 5 samples are retained, the freshly
computed average is positive, and the current volume strictly exceeds
average times multiplier. -/
def check_volume_spike (d : AlertDetector) (symbol : String)
    (current_volume : ℤ) (percent_change : ℚ) : Bool × AlertDetector :=
  let entry := (d.volume_history symbol).getD { samples := [], avg := (current_volume : ℚ) }
  let samples2 := push_sample entry.samples current_volume
  match baseline_avg samples2 with
  | some avg =>
      let fired := decide (0 < avg ∧ avg * (select_multiplier percent_change : ℚ) < (current_volume : ℚ))
      (fired, { d with volume_history := volume_history_set d.volume_history symbol ⟨samples2, avg⟩ })
  | none =>
      (false, { d with volume_history := volume_history_set d.volume_history symbol ⟨samples2, entry.avg⟩ })

/-- Claim C5: while fewer than 5 samples have been observed for a symbol the
baseline average is undefined and the spike rule cannot fire for any current
volume and percent change; and whenever the rule fires, the baseline average
of the retained samples is defined, positive, and exceeded by the current
volume scaled test. -/
theorem volume_spike_baseline :
    (∀ (d : AlertDetector) (sym : String) (v : ℤ) (p : ℚ),
      (samples_of d sym).length < 5 →
        baseline_avg (push_sample (samples_of d sym) v) = none
        ∧ (check_volume_spike d sym v p).1 = false)
    ∧ (∀ (d : AlertDetector) (sym : String) (v : ℤ) (p : ℚ),
      (check_volume_spike d sym v p).1 = true →
        ∃ avg : ℚ, baseline_avg (push_sample (samples_of d sym) v) = some avg
          ∧ 0 < avg ∧ avg * (select_multiplier p : ℚ) < (v : ℚ)) := by
  have hsamples : ∀ (d : AlertDetector) (sym : String) (v : ℤ),
      ((d.volume_history sym).getD { samples := [], avg := (v : ℚ) }).samples
        = samples_of d sym := by
    intro d sym v
    cases h : d.volume_history sym <;> simp [samples_of, h]
  constructor
  · intro d sym v p hlen
    have hlen2 : (push_sample (samples_of d sym) v).length ≤ 5 := by
      simp only [push_sample]
      split
      · simp
        omega
      · simp
        omega
    have hnone : baseline_avg (push_sample (samples_of d sym) v) = none := by
      simp only [baseline_avg]
      rw [if_neg]
      omega
    refine ⟨hnone, ?_⟩
    simp only [check_volume_spike, hsamples]
    rw [hnone]
  · intro d sym v p hfired
    simp only [check_volume_spike, hsamples] at hfired
    rcases havg : baseline_avg (push_sample (samples_of d sym) v) with _ | avg
    · rw [havg] at hfired
      simp at hfired
    · rw [havg] at hfired
      simp only [decide_eq_true_eq] at hfired
      exact ⟨avg, rfl, hfired.1, hfired.2⟩

/-- Witness for volume_spike_baseline: on a fresh detector (zero stored
samples) the first observation defines no baseline and fires no spike. -/
theorem volume_spike_baseline_witness :
    baseline_avg (push_sample (samples_of init_detector "XYZ") 250000) = none
    ∧ (check_volume_spike init_detector "XYZ" 250000 15).1 = false :=
  volume_spike_baseline.1 init_detector "XYZ" 250000 15 (by decide)

/-! ### Unusual options scan (StockScannerBot.scan_unusual_options, lines 418-433) -/

/-- The per-contract evaluation of lines 428-431: contracts with zero (or
negative) open interest are skipped by the outer guard before the ratio or
volume floors are ever consulted. -/
def unusual_qualifies (o : OptionData) : Bool :=
  if 0 < o.open_interest then
    decide ((5 : ℚ) ≤ (o.volume : ℚ) / (o.open_interest : ℚ) ∨ 5000 ≤ o.volume)
  else false

/-- The loop body of scan_unusual_options over the truncated contract list,
threading the dedup history; returns the contracts whose alert was sent. -/
def scan_unusual_go : AlertHistory → Int → List OptionData → List OptionData × AlertHistory
  | led, _, [] => ([], led)
  | led, now, o :: rest =>
    if unusual_qualifies o then
      let r := can_send_alert led o.base_symbol "UNUSUAL_OPTIONS" now
      let rec2 := scan_unusual_go r.2 now rest
      (if r.1 then o :: rec2.1 else rec2.1, rec2.2)
    else scan_unusual_go led now rest

/-- StockScannerBot.scan_unusual_options (lines 418-433): gated on the
market being open, processes only the first 15 contracts. -/
def scan_unusual_options (market_open : Bool) (led : AlertHistory)
    (options : List OptionData) (now : Int) : List OptionData × AlertHistory :=
  if market_open then scan_unusual_go led now (options.take 15)
  else ([], led)

/-- A concrete contract with volume 5000 and open interest 0: per the claim
it qualifies on the absolute-volume floor, but the code skips it. -/
def option_oi_zero : OptionData :=
  { symbol := "XYZ260101C10", base_symbol := "XYZ", option_type := "Call",
    strike := 10, expiration := "2026-01-01", volume := 5000,
    open_interest := 0, last_price := 1, volatility := 50, trade_time := "10:00" }

/-- Counterexample to claim C6: the contract option_oi_zero satisfies the
claimed firing condition (volume at least 5000) yet unusual_qualifies
rejects it, because the code only evaluates contracts whose open interest
is strictly positive. -/
theorem unusual_options_oi_zero_counter :
    ¬ (unusual_qualifies option_oi_zero = true
        ↔ ((5 : ℚ) ≤ (option_oi_zero.volume : ℚ) / (option_oi_zero.open_interest : ℚ)
            ∨ 5000 ≤ option_oi_zero.volume)) := by
  intro h
  have h2 : (5000 : ℤ) ≤ option_oi_zero.volume := by norm_num [option_oi_zero]
  have h3 : unusual_qualifies option_oi_zero = false := by norm_num [unusual_qualifies, option_oi_zero]
  rw [h3] at h
  exact absurd (h.mpr (Or.inr h2)) (by simp)

/-- Claim C6 as amended: a contract fires the unusual-activity evaluation
iff its open interest is strictly positive and (its volume-to-open-interest
quotient is at least 5 or its volume is at least 5000); moreover every
contract whose alert the scan actually sends passed that evaluation and was
among the first 15 contracts of the dataset. -/
theorem unusual_options_fire_characterization :
    (∀ o : OptionData,
      unusual_qualifies o = true
        ↔ (0 < o.open_interest
            ∧ ((5 : ℚ) ≤ (o.volume : ℚ) / (o.open_interest : ℚ) ∨ 5000 ≤ o.volume)))
    ∧ (∀ (led : AlertHistory) (opts : List OptionData) (now : Int) (o : OptionData),
      o ∈ (scan_unusual_options true led opts now).1 →
        unusual_qualifies o = true ∧ o ∈ opts.take 15) := by
  have hgo : ∀ (l : List OptionData) (led : AlertHistory) (now : Int) (o : OptionData),
      o ∈ (scan_unusual_go led now l).1 → unusual_qualifies o = true ∧ o ∈ l := by
    intro l
    induction l with
    | nil => intro led now o h; simp [scan_unusual_go] at h
    | cons a rest ih =>
      intro led now o h
      simp only [scan_unusual_go] at h
      by_cases hq : unusual_qualifies a
      · rw [if_pos hq] at h
        by_cases hr : (can_send_alert led a.base_symbol "UNUSUAL_OPTIONS" now).1
        · rw [if_pos hr] at h
          rcases List.mem_cons.mp h with h1 | h1
          · exact ⟨by rwa [h1], by simp [h1]⟩
          · rcases ih _ now o h1 with ⟨hq2, hm⟩
            exact ⟨hq2, List.mem_cons_of_mem a hm⟩
        · rw [if_neg hr] at h
          rcases ih _ now o h with ⟨hq2, hm⟩
          exact ⟨hq2, List.mem_cons_of_mem a hm⟩
      · rw [if_neg hq] at h
        rcases ih led now o h with ⟨hq2, hm⟩
        exact ⟨hq2, List.mem_cons_of_mem a hm⟩
  constructor
  · intro o
    simp only [unusual_qualifies]
    by_cases hoi : 0 < o.open_interest
    · rw [if_pos hoi]
      simp [hoi]
    · rw [if_neg hoi]
      simp [hoi]
  · intro led opts now o h
    simp only [scan_unusual_options, if_pos] at h
    exact hgo (opts.take 15) led now o h

/-- A concrete qualifying contract: volume 5000, open interest 100. -/
def option_qualifying : OptionData :=
  { symbol := "ABC260101C10", base_symbol := "ABC", option_type := "Call",
    strike := 10, expiration := "2026-01-01", volume := 5000,
    open_interest := 100, last_price := 1, volatility := 50, trade_time := "10:00" }

/-- Witness for unusual_options_fire_characterization: on an empty history
the scan of the single qualifying contract sends its alert, and the theorem
recovers that it qualifies and sits among the first 15 entries. -/
theorem unusual_options_fire_characterization_witness :
    unusual_qualifies option_qualifying = true
    ∧ option_qualifying ∈ ([option_qualifying] : List OptionData).take 15 :=
  unusual_options_fire_characterization.2 empty_history [option_qualifying] 0
    option_qualifying (by
      simp [scan_unusual_options, scan_unusual_go, unusual_qualifies,
        option_qualifying, can_send_alert, empty_history])

/-! ### Top-10 report (StockScannerBot.send_top10_report, lines 456-471) -/

/-- StockScannerBot.send_top10_report (lines 456-471): returns whether a
summary message is sent.  The current time now enters only the message
text (line 465); the gating reads nothing but the market flag and whether
the gainers fetch returned data. -/
def send_top10_report (market_open : Bool) (gainers : List StockData)
    (now : Int) : Bool :=
  if market_open then
    if gainers.isEmpty then false else true
  else false

/-- The minute bucket of an instant, as the claimed per-minute dedup key
would partition time. -/
def minute_bucket (t : Int) : Int := t / 60

/-- Consecutive executions of the summary task at the given instants, with
a fixed market flag and fixed fetched gainers: the list of send decisions.
The task keeps no state between executions in the source. -/
def summary_run (market_open : Bool) (gainers : List StockData)
    (times : List Int) : List Bool :=
  times.map (fun t => send_top10_report market_open gainers t)

/-- Counterexample to claim C7: two summary executions at t = 0 and t = 30
fall in the same minute bucket, yet both send — send_top10_report applies
no per-minute-bucket deduplication (the claim requires the second send to
be suppressed). -/
theorem top10_same_minute_counter :
    minute_bucket 0 = minute_bucket 30
    ∧ summary_run true
        [{ symbol := "XYZ", price := 10, change_percent := 6, volume := 1000 }]
        [0, 30] = [true, true] := by
  constructor
  · decide
  · rfl

/-- Claim C7 as amended: the summary task sends exactly when the market
flag is open and the gainers fetch is nonempty, independently of the clock
instant: there is no per-minute-bucket deduplication, and rate limiting
comes only from the 300-second schedule interval. -/
theorem top10_report_no_dedup :
    (∀ (mo : Bool) (g : List StockData) (t : Int),
      send_top10_report mo g t = true ↔ (mo = true ∧ g.isEmpty = false))
    ∧ (∀ (mo : Bool) (g : List StockData) (t1 t2 : Int),
      send_top10_report mo g t1 = send_top10_report mo g t2) := by
  constructor
  · intro mo g t
    cases mo <;> cases hg : g.isEmpty <;> simp [send_top10_report, hg]
  · intro mo g t1 t2
    cases mo <;> simp [send_top10_report]

/-! ### Market clock and status transitions (lines 350-373 and 576-590) -/

/-- The scheduler-visible state of StockScannerBot (lines 346-348). -/
structure SchedState where
  market_open : Bool
  startup_sent : Bool
  is_running : Bool
deriving DecidableEq, Repr

/-- The state at construction (lines 346-348). -/
def init_state : SchedState :=
  { market_open := false, startup_sent := false, is_running := false }

/-- StockScannerBot.startup (lines 365-373): sends the startup notice when
it has not been sent and the market is open; returns whether it sent. -/
def startup (s : SchedState) : SchedState × Bool :=
  if s.startup_sent = false ∧ s.market_open = true then
    ({ s with startup_sent := true }, true)
  else (s, false)

/-- StockScannerBot.check_market_status (lines 576-590), with the wall
clock abstracted into the hours_open argument (the result of
check_market_hours at lines 350-363); returns the new state and whether
the startup notice was sent during this call. -/
def check_market_status (s : SchedState) (hours_open : Bool) : SchedState × Bool :=
  let s1 := { s with market_open := hours_open }
  if s.market_open = true ∧ hours_open = false then
    ({ s1 with is_running := false, startup_sent := false }, false)
  else if s.market_open = false ∧ hours_open = true then
    startup { s1 with is_running := true }
  else if hours_open = true ∧ s1.startup_sent = false then
    startup s1
  else (s1, false)

/-- Iterated market-status checks from a given state; the Bool list holds
the successive check_market_hours readings. -/
def run_checks (s : SchedState) (hs : List Bool) : SchedState :=
  hs.foldl (fun st h => (check_market_status st h).1) s

/-- While the market flag is off, the startup-sent flag is off too: this
invariant holds at construction and is preserved by every status check. -/
theorem closed_not_startup_sent (hs : List Bool) :
    (run_checks init_state hs).market_open = false →
    (run_checks init_state hs).startup_sent = false := by
  suffices hgen : ∀ (hs : List Bool) (s : SchedState),
      (s.market_open = false → s.startup_sent = false) →
      ((run_checks s hs).market_open = false → (run_checks s hs).startup_sent = false) by
    exact hgen hs init_state (fun _ => rfl)
  intro hs
  induction hs with
  | nil => intro s hinv; exact hinv
  | cons h rest ih =>
    intro s hinv
    refine ih (check_market_status s h).1 ?_
    simp only [check_market_status, startup]
    split_ifs with h1 h2 h3 h4 h5 <;> intro hmo <;> simp_all

/-- Claim C9: from any reachable scheduler state, a CLOSED-to-OPEN
transition sends the startup notice and sets the startup-sent flag; an
OPEN-to-CLOSED transition resets the flag and sends nothing; and when the
reading matches the current state while the flag is already set, the notice
is not re-sent. -/
theorem market_transitions_startup (hs : List Bool) (h : Bool) :
    ((run_checks init_state hs).market_open = false → h = true →
      (check_market_status (run_checks init_state hs) h).2 = true
      ∧ (check_market_status (run_checks init_state hs) h).1.startup_sent = true)
    ∧ ((run_checks init_state hs).market_open = true → h = false →
      (check_market_status (run_checks init_state hs) h).1.startup_sent = false
      ∧ (check_market_status (run_checks init_state hs) h).2 = false)
    ∧ (h = (run_checks init_state hs).market_open →
      (run_checks init_state hs).startup_sent = true →
      (check_market_status (run_checks init_state hs) h).2 = false) := by
  refine ⟨?_, ?_, ?_⟩
  · intro hmo hh
    have hss : (run_checks init_state hs).startup_sent = false :=
      closed_not_startup_sent hs hmo
    subst hh
    simp [check_market_status, startup, hmo, hss]
  · intro hmo hh
    subst hh
    simp [check_market_status, hmo]
  · intro hh hss
    cases hcase : (run_checks init_state hs).market_open with
    | false =>
      rw [hcase] at hh
      subst hh
      simp [check_market_status, hcase]
    | true =>
      rw [hcase] at hh
      subst hh
      simp [check_market_status, startup, hcase, hss]

/-- Witness for market_transitions_startup: at the initial state (market
closed, flag clear) an open reading sends the notice and sets the flag. -/
theorem market_transitions_startup_witness :
    (check_market_status (run_checks init_state []) true).2 = true
    ∧ (check_market_status (run_checks init_state []) true).1.startup_sent = true :=
  (market_transitions_startup [] true).1 rfl rfl

/-! ### Main loop gating (StockScannerBot.run, lines 615-631) -/

/-- One iteration of the while loop at lines 617-622, observed at a tick
where the market-recheck task is due: schedule.run_pending() is reached
only when is_running is true, so the recheck executes (and updates the
state) only then.  Returns the state after the tick and whether the
recheck task body actually executed. -/
def loop_tick_recheck (s : SchedState) (recheck_due : Bool)
    (hours_open : Bool) : SchedState × Bool :=
  if s.is_running then
    if recheck_due then ((check_market_status s hours_open).1, true)
    else (s, false)
  else (s, false)

/-! ### Halt check and 5-percent-mover processing (lines 396-440) -/

/-- StockScannerBot.check_halt_status (lines 435-440).  The underlying
query get_market_info (lines 236-238) is a market-info call whose response
is abstracted into the market_halted argument; the symbol enters the
cooldown key and the alert only. -/
def check_halt_status (d : AlertDetector) (symbol : String) (now : Int)
    (market_halted : Bool) : Bool × AlertDetector :=
  if market_halted then
    let r := can_send_alert d.alert_history symbol "HALT_ALERT" now
    (r.1, { d with alert_history := r.2 })
  else (false, d)

/-- The observable outcome of one process_5percent_mover call: which
alerts were dispatched, whether the halt-status query was made, and the
detector state afterwards. -/
structure MoverOutcome where
  bid_alert : Option String
  halt_checked : Bool
  halt_alert : Bool
  unusual_alert : Bool
  detector : AlertDetector

/-- StockScannerBot.process_5percent_mover (lines 396-416).  Both bid-match
variants funnel through the single cooldown kind BID_MATCH (line 402); on
an allowed firing the halt check runs and the symbol joins the watchlist;
otherwise, when no bid match at all, the first insider trade at or above
MIN_INSIDER_SHARES attempts an UNUSUAL_ACTIVITY alert. -/
def process_5percent_mover (d : AlertDetector) (stock : StockData) (now : Int)
    (market_halted : Bool) (insider_trades : List Trade) : MoverOutcome :=
  let bm := check_bid_match stock
  if bm.1 then
    let r := can_send_alert d.alert_history stock.symbol "BID_MATCH" now
    let d1 := { d with alert_history := r.2 }
    if r.1 then
      let hres := check_halt_status d1 stock.symbol now market_halted
      let d2 := add_to_watchlist hres.2 stock.symbol
      { bid_alert := some bm.2, halt_checked := true, halt_alert := hres.1,
        unusual_alert := false, detector := d2 }
    else
      { bid_alert := none, halt_checked := false, halt_alert := false,
        unusual_alert := false, detector := d1 }
  else
    match insider_trades.find? (fun tr => decide (MIN_INSIDER_SHARES ≤ tr.shares)) with
    | some _ =>
      let r := can_send_alert d.alert_history stock.symbol "UNUSUAL_ACTIVITY" now
      { bid_alert := none, halt_checked := false, halt_alert := false,
        unusual_alert := r.1, detector := { d with alert_history := r.2 } }
    | none =>
      { bid_alert := none, halt_checked := false, halt_alert := false,
        unusual_alert := false, detector := d }

/-! ### Primary scan and watchlist sweep (lines 375-394 and 442-454) -/

/-- The alerts dispatched from one process_5percent_mover outcome, tagged
with the Telegram alert kind used at the call sites. -/
def mover_alert_list (out : MoverOutcome) (symbol : String) : List (String × String) :=
  (match out.bid_alert with | some _ => [("BID_MATCH", symbol)] | none => [])
  ++ (if out.halt_alert then [("HALT_ALERT", symbol)] else [])
  ++ (if out.unusual_alert then [("UNUSUAL_ACTIVITY", symbol)] else [])

/-- The per-stock body of scan_top_gainers (lines 386-394): volume-spike
check with its own cooldown kind, then the minimum-move gate before
process_5percent_mover. -/
def scan_stock (d : AlertDetector) (stock : StockData) (now : Int)
    (market_halted : Bool) (insider : List Trade) :
    List (String × String) × AlertDetector :=
  let vs := check_volume_spike d stock.symbol stock.volume stock.change_percent
  let spike_step :=
    if vs.1 then
      let r := can_send_alert vs.2.alert_history stock.symbol "VOLUME_SPIKE" now
      ((if r.1 then [("VOLUME_SPIKE", stock.symbol)] else []),
        { vs.2 with alert_history := r.2 })
    else (([] : List (String × String)), vs.2)
  if MIN_PERCENT_MOVE ≤ stock.change_percent then
    let out := process_5percent_mover spike_step.2 stock now market_halted insider
    (spike_step.1 ++ mover_alert_list out stock.symbol, out.detector)
  else spike_step

def scan_go : AlertDetector → List StockData → Int → Bool → (String → List Trade) →
    List (String × String) × AlertDetector
  | d, [], _, _, _ => ([], d)
  | d, st :: rest, now, halted, insider =>
    let r1 := scan_stock d st now halted (insider st.symbol)
    let r2 := scan_go r1.2 rest now halted insider
    (r1.1 ++ r2.1, r2.2)

/-- StockScannerBot.scan_top_gainers (lines 375-394): a no-op unless the
market flag is open. -/
def scan_top_gainers (market_open : Bool) (d : AlertDetector)
    (stocks : List StockData) (now : Int) (market_halted : Bool)
    (insider : String → List Trade) : List (String × String) × AlertDetector :=
  if market_open then scan_go d stocks now market_halted insider
  else ([], d)

/-- The inner trade loop of monitor_watchlist (lines 448-454); the upper
cased transaction type of the source is taken as already upper case. -/
def monitor_symbol : AlertDetector → String → Int → List Trade →
    List (String × String) × AlertDetector
  | d, _, _, [] => ([], d)
  | d, sym, now, tr :: rest =>
    if tr.transactionType = "SELL" ∧ MIN_INSIDER_SHARES ≤ tr.shares then
      let r := can_send_alert d.alert_history sym "LARGE_SALE" now
      let d1 := { d with alert_history := r.2 }
      let rest_r := monitor_symbol d1 sym now rest
      ((if r.1 then [("LARGE_SALE", sym)] else []) ++ rest_r.1, rest_r.2)
    else monitor_symbol d sym now rest

def monitor_go : AlertDetector → List String → Int → (String → List Trade) →
    List (String × String) × AlertDetector
  | d, [], _, _ => ([], d)
  | d, sym :: rest, now, insider =>
    let r1 := monitor_symbol d sym now (insider sym)
    let r2 := monitor_go r1.2 rest now insider
    (r1.1 ++ r2.1, r2.2)

/-- StockScannerBot.monitor_watchlist (lines 442-454): a no-op unless the
market flag is open. -/
def monitor_watchlist (market_open : Bool) (d : AlertDetector) (now : Int)
    (insider : String → List Trade) : List (String × String) × AlertDetector :=
  if market_open then monitor_go d d.watchlist now insider
  else ([], d)

/-- Claim C1 (refuted on the code, supporting the code_bug verdict): after
an OPEN-to-CLOSED transition (or when the process starts with the market
closed) is_running is false, and then the while loop of run() skips
schedule.run_pending() entirely, so the due market-state recheck does not
execute even though the market hours have turned open again; meanwhile the
claim's other half does hold: every other scheduled task does no work while
the market flag is closed. -/
theorem scheduler_recheck_gated_when_stopped :
    (run_checks init_state [true, false]).is_running = false
    ∧ (run_checks init_state [true, false]).market_open = false
    ∧ loop_tick_recheck (run_checks init_state [true, false]) true true
        = (run_checks init_state [true, false], false)
    ∧ (check_market_status init_state false).1.is_running = false
    ∧ loop_tick_recheck (check_market_status init_state false).1 true true
        = ((check_market_status init_state false).1, false)
    ∧ (∀ (d : AlertDetector) (stocks : List StockData) (now : Int)
        (halted : Bool) (insider : String → List Trade),
        scan_top_gainers false d stocks now halted insider = ([], d))
    ∧ (∀ (led : AlertHistory) (opts : List OptionData) (now : Int),
        scan_unusual_options false led opts now = ([], led))
    ∧ (∀ (g : List StockData) (now : Int), send_top10_report false g now = false)
    ∧ (∀ (d : AlertDetector) (now : Int) (insider : String → List Trade),
        monitor_watchlist false d now insider = ([], d)) := by
  refine ⟨by decide, by decide, by decide, by decide, by decide, ?_, ?_, ?_, ?_⟩
  · intro d stocks now halted insider
    simp [scan_top_gainers]
  · intro led opts now
    simp [scan_unusual_options]
  · intro g now
    simp [send_top10_report]
  · intro d now insider
    simp [monitor_watchlist]

/-! ### Cooldown keys for distinct alert kinds -/

theorem history_set_self (led : AlertHistory) (k : String) (t : Int) :
    history_set led k t k = some t := by
  simp [history_set]

theorem history_set_other (led : AlertHistory) (k k2 : String) (t : Int)
    (h : k2 ≠ k) : history_set led k t k2 = led k2 := by
  simp [history_set, h]

/-- Two cooldown keys for the same symbol with different alert kinds are
different dictionary keys. -/
theorem alert_key_ne (sym k1 k2 : String) (hne : k1 ≠ k2) :
    alert_key sym k1 ≠ alert_key sym k2 := by
  intro h
  apply hne
  have hd := congrArg String.data h
  simp only [alert_key, String.data_append, List.append_assoc] at hd
  exact String.ext (List.append_cancel_left (List.append_cancel_left hd))

/-- A stock matching the exact bid rule. -/
def stock_exact : StockData :=
  { symbol := "XYZ", price := 10, change_percent := 6, volume := 1000,
    bid := 199999, bid_size := 100 }

/-- A stock (same symbol) matching only the high-value bid rule. -/
def stock_high : StockData :=
  { symbol := "XYZ", price := 12, change_percent := 7, volume := 1000,
    bid := 2500, bid_size := 25 }

/-- Counterexample to claim C8: after an exact bid-match alert for XYZ at
t = 0, a high-value bid match for the same symbol at t = 100 (inside the
cooldown) is suppressed, because both variants share the single cooldown
kind BID_MATCH; the claim predicts the high-value alert would fire. -/
theorem bid_kinds_shared_counter :
    check_bid_match stock_high = (true, "HIGH_VALUE")
    ∧ (process_5percent_mover init_detector stock_exact 0 false []).bid_alert
        = some "EXACT"
    ∧ (process_5percent_mover
        (process_5percent_mover init_detector stock_exact 0 false []).detector
        stock_high 100 false []).bid_alert = none := by
  refine ⟨by decide, by decide, by decide⟩

theorem add_to_watchlist_history (d : AlertDetector) (sym : String) :
    (add_to_watchlist d sym).alert_history = d.alert_history := by
  unfold add_to_watchlist
  split <;> rfl

/-- Claim C8 as amended: cooldown suppression is keyed by (symbol,
alert-kind), but the two bid-match variants share the single kind
BID_MATCH: an allowed exact bid-match firing for a symbol stores one
timestamp under that shared kind, and a high-value bid match for the same
symbol within the cooldown window is suppressed by it (rather than firing
under a kind of its own, as the original claim stated). -/
theorem bid_match_shared_cooldown_key (sym : String) (s1 s2 : StockData)
    (t0 t1 : Int) (mh1 mh2 : Bool) (ins1 ins2 : List Trade)
    (hs1 : s1.symbol = sym) (hs2 : s2.symbol = sym)
    (he1 : s1.bid = BID_MATCH_PRICE_1) (he2 : s1.bid_size = BID_MATCH_SHARES_1)
    (hh1 : BID_MATCH_PRICE_2 ≤ s2.bid) (hh2 : BID_MATCH_SHARES_2 ≤ s2.bid_size)
    (hne : ¬ (s2.bid = BID_MATCH_PRICE_1 ∧ s2.bid_size = BID_MATCH_SHARES_1))
    (hcool : t1 - t0 < COOLDOWN) :
    (process_5percent_mover init_detector s1 t0 mh1 ins1).bid_alert = some "EXACT"
    ∧ (process_5percent_mover
        (process_5percent_mover init_detector s1 t0 mh1 ins1).detector
        s2 t1 mh2 ins2).bid_alert = none := by
  have hbm1 : check_bid_match s1 = (true, "EXACT") := by
    simp [check_bid_match, he1, he2]
  have hbm2 : check_bid_match s2 = (true, "HIGH_VALUE") := by
    simp only [check_bid_match]
    rw [if_neg hne, if_pos ⟨hh1, hh2⟩]
  have hkne : alert_key sym "HALT_ALERT" ≠ alert_key sym "BID_MATCH" :=
    alert_key_ne sym "HALT_ALERT" "BID_MATCH" (by decide)
  have hkne2 : alert_key sym "BID_MATCH" ≠ alert_key sym "HALT_ALERT" :=
    alert_key_ne sym "BID_MATCH" "HALT_ALERT" (by decide)
  have hr1 : can_send_alert init_detector.alert_history s1.symbol "BID_MATCH" t0
      = (true, history_set empty_history (alert_key sym "BID_MATCH") t0) := by
    rw [hs1]
    simp [can_send_alert, init_detector, empty_history]
  have hfirst : (process_5percent_mover init_detector s1 t0 mh1 ins1).bid_alert
      = some "EXACT" := by
    simp [process_5percent_mover, hbm1, hr1]
  have hKB : (process_5percent_mover init_detector s1 t0 mh1 ins1).detector.alert_history
      (alert_key sym "BID_MATCH") = some t0 := by
    simp only [process_5percent_mover, hbm1, hr1]
    cases mh1 with
    | false =>
      simp [check_halt_status, add_to_watchlist_history, history_set]
    | true =>
      simp [check_halt_status, add_to_watchlist_history, can_send_alert,
        history_set, empty_history, hs1, hkne, hkne2]
  refine ⟨hfirst, ?_⟩
  have hsend : can_send_alert
      (process_5percent_mover init_detector s1 t0 mh1 ins1).detector.alert_history
      s2.symbol "BID_MATCH" t1
      = (false, (process_5percent_mover init_detector s1 t0 mh1 ins1).detector.alert_history) := by
    rw [hs2]
    simp [can_send_alert, hKB, hcool]
  generalize hD : process_5percent_mover init_detector s1 t0 mh1 ins1 = D at hsend ⊢
  simp [process_5percent_mover, hbm2, hsend]

/-- Witness for bid_match_shared_cooldown_key at the concrete stocks
stock_exact and stock_high, times 0 and 100. -/
theorem bid_match_shared_cooldown_key_witness :
    (process_5percent_mover init_detector stock_exact 0 false []).bid_alert = some "EXACT"
    ∧ (process_5percent_mover
        (process_5percent_mover init_detector stock_exact 0 false []).detector
        stock_high 100 false []).bid_alert = none :=
  bid_match_shared_cooldown_key "XYZ" stock_exact stock_high 0 100 false false [] []
    rfl rfl (by decide) (by decide) (by decide) (by decide) (by decide) (by decide)

/-! ### Bid-match firing and halt checks along traces (claim C10) -/

theorem can_send_alert_fst_true (led : AlertHistory) (s k : String) (now : Int)
    (h : ∀ last : Int, led (alert_key s k) = some last → COOLDOWN ≤ now - last) :
    (can_send_alert led s k now).1 = true := by
  simp only [can_send_alert]
  cases hl : led (alert_key s k) with
  | none => rfl
  | some last =>
    have hc := h last hl
    simp [show ¬ (now - last < COOLDOWN) by omega]

theorem can_send_alert_granted (led : AlertHistory) (s k : String) (now : Int)
    (h : (can_send_alert led s k now).1 = true) :
    (can_send_alert led s k now).2 = history_set led (alert_key s k) now
    ∧ ∀ last : Int, led (alert_key s k) = some last → COOLDOWN ≤ now - last := by
  simp only [can_send_alert] at h ⊢
  cases hl : led (alert_key s k) with
  | none => simp
  | some last =>
    rw [hl] at h
    dsimp only at h ⊢
    by_cases hc : now - last < COOLDOWN
    · rw [if_pos hc] at h
      simp at h
    · rw [if_neg hc]
      refine ⟨rfl, ?_⟩
      intro last2 hl2
      injection hl2 with hh
      subst hh
      omega

theorem can_send_alert_denied (led : AlertHistory) (s k : String) (now : Int)
    (h : (can_send_alert led s k now).1 = false) :
    (can_send_alert led s k now).2 = led := by
  simp only [can_send_alert] at h ⊢
  cases hl : led (alert_key s k) with
  | none =>
    rw [hl] at h
    simp at h
  | some last =>
    rw [hl] at h
    dsimp only at h ⊢
    by_cases hc : now - last < COOLDOWN
    · rw [if_pos hc]
    · rw [if_neg hc] at h
      simp at h

/-- The dedup history after one process_5percent_mover call is the original
history, an UNUSUAL_ACTIVITY recording, or (for an allowed bid-match
firing, which implies the cooldown was clear) a BID_MATCH recording
optionally followed by a HALT_ALERT recording at the same instant. -/
theorem process_mover_history (d : AlertDetector) (stock : StockData) (now : Int)
    (mh : Bool) (ins : List Trade) :
    (process_5percent_mover d stock now mh ins).detector.alert_history = d.alert_history
    ∨ (process_5percent_mover d stock now mh ins).detector.alert_history
        = history_set d.alert_history (alert_key stock.symbol "UNUSUAL_ACTIVITY") now
    ∨ ((∀ last : Int, d.alert_history (alert_key stock.symbol "BID_MATCH") = some last →
          COOLDOWN ≤ now - last)
        ∧ ((process_5percent_mover d stock now mh ins).detector.alert_history
            = history_set d.alert_history (alert_key stock.symbol "BID_MATCH") now
          ∨ (process_5percent_mover d stock now mh ins).detector.alert_history
            = history_set (history_set d.alert_history (alert_key stock.symbol "BID_MATCH") now)
                (alert_key stock.symbol "HALT_ALERT") now)) := by
  simp only [process_5percent_mover]
  cases hbm : (check_bid_match stock).1 with
  | false =>
    cases hf : ins.find? (fun tr => decide (MIN_INSIDER_SHARES ≤ tr.shares)) with
    | none => simp
    | some tr =>
      cases hr : (can_send_alert d.alert_history stock.symbol "UNUSUAL_ACTIVITY" now).1 with
      | false =>
        left
        simp only
        exact can_send_alert_denied _ _ _ _ hr
      | true =>
        right; left
        simp only
        exact (can_send_alert_granted _ _ _ _ hr).1
  | true =>
    cases hr : (can_send_alert d.alert_history stock.symbol "BID_MATCH" now).1 with
    | false =>
      left
      simp only [hr, Bool.false_eq_true, if_false]
      exact can_send_alert_denied _ _ _ _ hr
    | true =>
      obtain ⟨hset, hgr⟩ := can_send_alert_granted _ _ _ _ hr
      right; right
      refine ⟨hgr, ?_⟩
      simp only [hr, if_true, add_to_watchlist_history, check_halt_status]
      cases mh with
      | false =>
        left
        simp only [Bool.false_eq_true, if_false]
        exact hset
      | true =>
        cases hrh : (can_send_alert
            (can_send_alert d.alert_history stock.symbol "BID_MATCH" now).2
            stock.symbol "HALT_ALERT" now).1 with
        | false =>
          left
          simp only [if_true]
          rw [can_send_alert_denied _ _ _ _ hrh, hset]
        | true =>
          right
          simp only [if_true]
          rw [(can_send_alert_granted _ _ _ _ hrh).1, hset]

/-- One event of a trace of qualifying movers for a fixed symbol: the bid
data seen in the snapshot, the instant, the market-info halted response
the data source would give during this processing, and the insider trades. -/
structure MoverEvent where
  bid : ℚ
  bid_size : ℤ
  t : Int
  market_halted : Bool
  insider : List Trade

/-- The instrument snapshot of an event (fields not read by
process_5percent_mover are zero). -/
def event_stock (sym : String) (e : MoverEvent) : StockData :=
  { symbol := sym, price := 0, change_percent := 0, volume := 0,
    bid := e.bid, bid_size := e.bid_size }

/-- Processing a trace of mover events for one symbol. -/
def run_movers (sym : String) : AlertDetector → List MoverEvent → AlertDetector
  | d, [] => d
  | d, e :: rest =>
    run_movers sym
      (process_5percent_mover d (event_stock sym e) e.t e.market_halted e.insider).detector
      rest

/-- A halt-alert timestamp for a symbol is never newer than the bid-match
timestamp for the same symbol: halt alerts are only recorded in the same
processing step that records a bid match. -/
def halt_after_bid (led : AlertHistory) (sym : String) : Prop :=
  ∀ th : Int, led (alert_key sym "HALT_ALERT") = some th →
    ∃ tb : Int, led (alert_key sym "BID_MATCH") = some tb ∧ th ≤ tb

theorem halt_after_bid_step (sym : String) (d : AlertDetector) (stock : StockData)
    (hsym : stock.symbol = sym) (now : Int) (mh : Bool) (ins : List Trade)
    (hinv : halt_after_bid d.alert_history sym) :
    halt_after_bid (process_5percent_mover d stock now mh ins).detector.alert_history sym := by
  have hHB : alert_key sym "HALT_ALERT" ≠ alert_key sym "BID_MATCH" :=
    alert_key_ne sym "HALT_ALERT" "BID_MATCH" (by decide)
  have hBH : alert_key sym "BID_MATCH" ≠ alert_key sym "HALT_ALERT" :=
    alert_key_ne sym "BID_MATCH" "HALT_ALERT" (by decide)
  have hHU : alert_key sym "HALT_ALERT" ≠ alert_key sym "UNUSUAL_ACTIVITY" :=
    alert_key_ne sym "HALT_ALERT" "UNUSUAL_ACTIVITY" (by decide)
  have hBU : alert_key sym "BID_MATCH" ≠ alert_key sym "UNUSUAL_ACTIVITY" :=
    alert_key_ne sym "BID_MATCH" "UNUSUAL_ACTIVITY" (by decide)
  have hCpos : (0 : Int) < COOLDOWN := by decide
  unfold halt_after_bid at hinv ⊢
  rcases process_mover_history d stock now mh ins with hcase | hcase | ⟨hgr, hcase | hcase⟩
  · rw [hcase]
    exact hinv
  · rw [hcase, hsym]
    intro th hth
    rw [history_set_other _ _ _ _ hHU] at hth
    obtain ⟨tb, htb, hle⟩ := hinv th hth
    exact ⟨tb, by rw [history_set_other _ _ _ _ hBU]; exact htb, hle⟩
  · rw [hsym] at hgr
    rw [hcase, hsym]
    intro th hth
    rw [history_set_other _ _ _ _ hHB] at hth
    obtain ⟨tb, htb, hle⟩ := hinv th hth
    have hcool := hgr tb htb
    refine ⟨now, history_set_self _ _ _, by omega⟩
  · rw [hcase, hsym]
    intro th hth
    rw [history_set_self] at hth
    injection hth with hh
    refine ⟨now, ?_, by omega⟩
    rw [history_set_other _ _ _ _ hBH, history_set_self]

theorem halt_after_bid_run (sym : String) (evs : List MoverEvent) :
    halt_after_bid (run_movers sym init_detector evs).alert_history sym := by
  suffices hgen : ∀ (l : List MoverEvent) (d : AlertDetector),
      halt_after_bid d.alert_history sym →
      halt_after_bid (run_movers sym d l).alert_history sym by
    refine hgen evs init_detector ?_
    intro th h
    exact absurd h (by simp [init_detector, empty_history])
  intro l
  induction l with
  | nil => intro d h; exact h
  | cons e rest ih =>
    intro d h
    exact ih _ (halt_after_bid_step sym d (event_stock sym e) rfl e.t e.market_halted e.insider h)

/-- Claim C10: along any trace of mover events for a symbol starting from a
fresh detector, whenever the next event's bid-match firing is allowed by
the dedup ledger, the halt-status check is triggered and the halt alert is
raised exactly when the halt query reports halted: an allowed bid-match
firing implies the HALT_ALERT cooldown is clear too, because halt
timestamps are only ever recorded together with bid-match timestamps. -/
theorem halt_check_follows_bid_match (sym : String) (evs : List MoverEvent) (e : MoverEvent)
    (hfired : (process_5percent_mover (run_movers sym init_detector evs)
        (event_stock sym e) e.t e.market_halted e.insider).bid_alert.isSome = true) :
    (process_5percent_mover (run_movers sym init_detector evs)
        (event_stock sym e) e.t e.market_halted e.insider).halt_checked = true
    ∧ (process_5percent_mover (run_movers sym init_detector evs)
        (event_stock sym e) e.t e.market_halted e.insider).halt_alert
      = e.market_halted := by
  have hHB : alert_key sym "HALT_ALERT" ≠ alert_key sym "BID_MATCH" :=
    alert_key_ne sym "HALT_ALERT" "BID_MATCH" (by decide)
  have hinv := halt_after_bid_run sym evs
  have hsymbol : (event_stock sym e).symbol = sym := rfl
  simp only [process_5percent_mover, hsymbol] at hfired ⊢
  cases hbm : (check_bid_match (event_stock sym e)).1 with
  | false =>
    rw [hbm, if_neg Bool.false_ne_true] at hfired
    cases hf : (e.insider).find? (fun tr => decide (MIN_INSIDER_SHARES ≤ tr.shares)) with
    | none =>
      rw [hf] at hfired
      simp at hfired
    | some tr =>
      rw [hf] at hfired
      simp at hfired
  | true =>
    rw [hbm, if_pos rfl] at hfired
    rw [if_pos rfl]
    cases hr : (can_send_alert (run_movers sym init_detector evs).alert_history
        sym "BID_MATCH" e.t).1 with
    | false =>
      rw [hr, if_neg Bool.false_ne_true] at hfired
      simp at hfired
    | true =>
      rw [if_pos rfl]
      obtain ⟨hset, hgr⟩ := can_send_alert_granted _ _ _ _ hr
      rw [hset]
      refine ⟨rfl, ?_⟩
      simp only [check_halt_status]
      cases hmh : e.market_halted with
      | false =>
        rw [if_neg Bool.false_ne_true]
      | true =>
        rw [if_pos rfl]
        have hcond : ∀ last : Int,
            history_set (run_movers sym init_detector evs).alert_history
              (alert_key sym "BID_MATCH") e.t (alert_key sym "HALT_ALERT") = some last →
            COOLDOWN ≤ e.t - last := by
          intro last hlast
          rw [history_set_other _ _ _ _ hHB] at hlast
          obtain ⟨tb, htb, hle⟩ := hinv last hlast
          have hcool := hgr tb htb
          omega
        exact can_send_alert_fst_true _ _ _ _ hcond

/-- A concrete mover event with an exact bid match at t = 0 during a
reported halt. -/
def event_exact : MoverEvent :=
  { bid := 199999, bid_size := 100, t := 0, market_halted := true, insider := [] }

/-- Witness for halt_check_follows_bid_match on the empty trace: the first
exact bid match is allowed, the halt check runs, and the halt alert equals
the halted response. -/
theorem halt_check_follows_bid_match_witness :
    (process_5percent_mover (run_movers "XYZ" init_detector [])
        (event_stock "XYZ" event_exact) event_exact.t event_exact.market_halted
        event_exact.insider).halt_checked = true
    ∧ (process_5percent_mover (run_movers "XYZ" init_detector [])
        (event_stock "XYZ" event_exact) event_exact.t event_exact.market_halted
        event_exact.insider).halt_alert = event_exact.market_halted :=
  halt_check_follows_bid_match "XYZ" [] event_exact (by decide)
